import Mathlib

/-!
# Verification of `cox-status.py` against its design specification

A shallow embedding of the core of `cox-status.py` (the `CoxInternetUsage`
class): the usage normalizer `process_data`, the authenticated-GET wrapper
`_get_with_auth`, the login flow `_do_login`, and the cookie-jar session
store `_create_session` / the save step of `_do_login`.

Modelling conventions:
* Python exceptions are modelled with `Except PyErr`; the distinct Python
  exception classes that matter (`KeyError`, `IndexError`, `ValueError`,
  `requests.HTTPError`, connection-level request failures, and OS/IO
  errors) are separate constructors, because `_do_login` catches only
  `requests.HTTPError`.
* Python dictionaries coming from JSON are modelled as structures whose
  fields are `Option`-valued; reading an absent key raises `KeyError`.
* Python `float` is modelled by `ℚ`; every division appearing in the
  program (`bytes / 2^30`, `int(..)/100`) is exact on the inputs the
  claims exercise, so no rounding behaviour is lost.
* `datetime.datetime` is modelled by `Datetime` (calendar fields plus a
  time of day); `timedelta.days` is the floored difference in days, as in
  Python.
-/

set_option autoImplicit false

namespace CoxStatus

/-- The Python exceptions relevant to `cox-status.py`.  `httpError` is
`requests.HTTPError` (raised by `raise_for_status`); `connectionError`
stands for the request-level failures (`requests.ConnectionError`,
timeouts, JSON decode errors) that are *not* `HTTPError`; `ioError` is an
OS-level failure such as a failing `open`/`pickle.dump`. -/
inductive PyErr where
  | keyError (k : String)
  | indexError
  | valueError
  | httpError (code : Nat)
  | connectionError
  | ioError
deriving DecidableEq, Repr

/-- Reading a key of a JSON-backed dict: `o[k]`, raising `KeyError` when
the key is absent. -/
def req {α : Type} (o : Option α) (k : String) : Except PyErr α :=
  match o with
  | some v => Except.ok v
  | none => Except.error (PyErr.keyError k)

/-- `l[0]` on a Python list: `IndexError` when empty. -/
def listGet0 {α : Type} (l : List α) : Except PyErr α :=
  match l with
  | [] => Except.error PyErr.indexError
  | x :: _ => Except.ok x

/-- First value bound to key `k` in an association list (a Python dict
built by successive assignment), raising `KeyError` when absent. -/
def dictGet (l : List (String × String)) (k : String) : Except PyErr String :=
  match l.lookup k with
  | some v => Except.ok v
  | none => Except.error (PyErr.keyError k)

/-- `response.raise_for_status()`: raises `requests.HTTPError` exactly for
status codes in [400, 600). -/
def raise_for_status (status : Nat) : Except PyErr Unit :=
  if 400 ≤ status ∧ status < 600 then Except.error (PyErr.httpError status)
  else Except.ok ()

/-- Split a character list at every occurrence of `sep`, keeping empty
segments (Python `str.split(sep)` semantics for a one-character
separator). -/
def splitOnChar (sep : Char) : List Char → List (List Char)
  | [] => [[]]
  | c :: rest =>
    if c = sep then [] :: splitOnChar sep rest
    else
      match splitOnChar sep rest with
      | h :: t => (c :: h) :: t
      | [] => [[c]]

/-- Python `s.split(sep)` for a one-character separator. -/
def strSplitOn (s : String) (sep : Char) : List String :=
  (splitOnChar sep s.data).map String.mk

/-- Strip leading and trailing whitespace from a character list. -/
def trimChars (l : List Char) : List Char :=
  ((l.dropWhile Char.isWhitespace).reverse.dropWhile Char.isWhitespace).reverse

/-- Python `s.strip()`. -/
def strTrim (s : String) : String := String.mk (trimChars s.data)

/-- Python `s.lower()`. -/
def strLower (s : String) : String := String.mk (s.data.map Char.toLower)

/-- Python `s.upper()`. -/
def strUpper (s : String) : String := String.mk (s.data.map Char.toUpper)

/-- Replace every `&nbsp;` HTML entity by a plain space. -/
def replaceNbsp : List Char → List Char
  | '&' :: 'n' :: 'b' :: 's' :: 'p' :: ';' :: rest => ' ' :: replaceNbsp rest
  | c :: rest => c :: replaceNbsp rest
  | [] => []

/-- Value of a decimal digit character. -/
def digitVal (c : Char) : ℕ := c.toNat - 48

/-- Numeric value of a list of decimal digit characters. -/
def natOfDigits (l : List Char) : ℕ := l.foldl (fun a c => a * 10 + digitVal c) 0

/-- Python `int(s)` as used by the program: strips surrounding whitespace
and parses a nonnegative decimal integer, raising `ValueError` otherwise
(the program only ever applies `int` to percentages, month/day numbers and
byte counts, all nonnegative). -/
def int_of_string (s : String) : Except PyErr ℕ :=
  let t := trimChars s.data
  if t ≠ [] ∧ t.all Char.isDigit then Except.ok (natOfDigits t)
  else Except.error PyErr.valueError

/-- `pat` occurs as a contiguous substring of `hay` (Python `in` on `str`). -/
def listSubstr (pat : List Char) : List Char → Bool
  | [] => pat.isEmpty
  | c :: t => pat.isPrefixOf (c :: t) || listSubstr pat t

/-- Python `pat in hay` for strings. -/
def strContains (hay pat : String) : Bool := listSubstr pat.data hay.data

/-- Lowercase English month names, as matched by `strptime`'s `%B`
directive. -/
def monthNames : List String :=
  ["january", "february", "march", "april", "may", "june",
   "july", "august", "september", "october", "november", "december"]

/-- Month number (1–12) of a month name, case-insensitively (Python
`strptime` matches `%B` case-insensitively). -/
def monthOfName (s : String) : Option ℕ :=
  (monthNames.findIdx? (fun n => n == strLower s)).map (· + 1)

/-- Gregorian leap-year test, as in Python's `calendar`/`datetime`. -/
def isLeap (y : ℕ) : Bool := y % 4 == 0 && (y % 100 != 0 || y % 400 == 0)

/-- Number of days in month `m` of year `y`. -/
def daysInMonth (y m : ℕ) : ℕ :=
  if m = 2 then (if isLeap y then 29 else 28)
  else if m = 4 ∨ m = 6 ∨ m = 9 ∨ m = 11 then 30
  else 31

/-- Model of `datetime.datetime`: a Gregorian calendar date plus a time of
day. -/
structure Datetime where
  year : ℕ
  month : ℕ
  day : ℕ
  hour : ℕ
  minute : ℕ
  second : ℕ
deriving DecidableEq, Repr

/-- Julian day number of a date (standard civil-calendar formula); used
only through differences, which model `timedelta`. -/
def rataDie (dt : Datetime) : ℕ :=
  let a := (14 - dt.month) / 12
  let y := dt.year + 4800 - a
  let m := dt.month + 12 * a - 3
  dt.day + (153 * m + 2) / 5 + 365 * y + y / 4 - y / 100 + y / 400 - 32045

/-- Seconds since the calendar origin, combining date and time of day. -/
def totalSeconds (dt : Datetime) : ℕ :=
  rataDie dt * 86400 + dt.hour * 3600 + dt.minute * 60 + dt.second

/-- `(a - b).days` on Python datetimes: the floored number of whole days
in the (possibly negative) difference. -/
def tdDays (a b : Datetime) : ℤ :=
  Int.fdiv ((totalSeconds a : ℤ) - (totalSeconds b : ℤ)) 86400

/-- `datetime.datetime(year=y, month=m, day=d)`: validates the field
ranges and raises `ValueError` on an invalid date. -/
def mkDatetime (y m d : ℕ) : Except PyErr Datetime :=
  if 1 ≤ y ∧ y ≤ 9999 ∧ 1 ≤ m ∧ m ≤ 12 ∧ 1 ≤ d ∧ d ≤ daysInMonth y m
  then Except.ok ⟨y, m, d, 0, 0, 0⟩
  else Except.error PyErr.valueError

/-- `datetime.datetime.strptime(s, "%B %d")`: a full English month name
followed by a 1–2 digit day, separated by whitespace; the result carries
the `strptime` default year 1900.  Raises `ValueError` on anything else
(including a day out of range for the month in year 1900). -/
def strptimeBd (s : String) : Except PyErr Datetime :=
  match (strSplitOn s ' ').filter (fun w => w ≠ "") with
  | [ms, ds] =>
    match monthOfName ms with
    | none => Except.error PyErr.valueError
    | some m =>
      if ds.data ≠ [] ∧ ds.data.all Char.isDigit ∧ ds.data.length ≤ 2 then
        let d := natOfDigits ds.data
        if 1 ≤ d ∧ d ≤ daysInMonth 1900 m then Except.ok ⟨1900, m, d, 0, 0, 0⟩
        else Except.error PyErr.valueError
      else Except.error PyErr.valueError
  | _ => Except.error PyErr.valueError

/-- Zero-padded two-digit rendering, for `strftime` `%m` / `%d`. -/
def fmt2 (n : ℕ) : String := if n < 10 then "0" ++ toString n else toString n

/-- `dt.strftime("%m/%d/%Y")`. -/
def strftime_mdY (dt : Datetime) : String :=
  fmt2 dt.month ++ "/" ++ fmt2 dt.day ++ "/" ++ toString dt.year

/-- Binary multiplier table of the byte-size parser (the spec's expected
values fix the binary interpretation: `1.25 TB` must come out as
`1280 × 2^30` bytes). -/
def unitMultiplier (u : String) : Option ℕ :=
  match strUpper u with
  | "B" => some 1
  | "KB" => some 1024
  | "MB" => some (1024 * 1024)
  | "GB" => some (1024 * 1024 * 1024)
  | "TB" => some (1024 * 1024 * 1024 * 1024)
  | _ => none

/-- Modelled from the spec: the byte-size parser `human2bytes` of the
`hsize` module, which the program imports but which is not under `src/`.
Per the spec (§4.1): given `<number><optional unit>` with units B, KB, MB,
GB, TB (case-insensitive, fixed multiplier table) it returns the integer
byte count, fails with a parse error on malformed input (no numeric
prefix, unrecognized unit), and strips HTML-entity artifacts such as
non-breaking spaces before parsing.  The integer byte count of a decimal
number is its floor after scaling, computed exactly on naturals. -/
def human2bytes (s : String) : Except PyErr ℕ :=
  let t := trimChars (replaceNbsp s.data)
  let ip := t.takeWhile Char.isDigit
  let rest := t.drop ip.length
  if ip = [] then Except.error PyErr.valueError
  else
    let fracAndRest : List Char × List Char :=
      match rest with
      | c :: r =>
        if c = '.' then (r.takeWhile Char.isDigit, r.drop (r.takeWhile Char.isDigit).length)
        else ([], rest)
      | [] => ([], [])
    let fp := fracAndRest.1
    let unit := strTrim (String.mk fracAndRest.2)
    match (if unit = "" then some 1 else unitMultiplier unit) with
    | some mult =>
      Except.ok ((natOfDigits ip * 10 ^ fp.length + natOfDigits fp) * mult / 10 ^ fp.length)
    | none => Except.error PyErr.valueError

/-- The `error` object of a payload: `{'errorCode': .., 'errorMessage': ..}`
with string values, as produced by the portal. -/
structure ErrorInfo where
  errorCode : String
  errorMessage : String
deriving DecidableEq, Repr

/-- One entry of `graphData`: `{'text': '6/15', 'data': '23'}`; fields are
optional because they are dict keys. -/
structure GraphNode where
  text : Option String
  data : Option String
deriving DecidableEq, Repr

/-- One entry of `modemGraphDetails`. -/
structure GraphSeries where
  graphData : Option (List GraphNode)
deriving DecidableEq, Repr

/-- The usage payload (`data` in `process_data`): the JSON returned by the
graph endpoint.  Every field is a dict key and hence optional. -/
structure UsagePayload where
  errorFlag : Option Bool
  error : Option ErrorInfo
  modemGraphDetails : Option (List GraphSeries)
deriving DecidableEq, Repr

/-- One entry of `modemDetails` in the summary payload. -/
structure ModemDetail where
  percentageDataUsed : Option String
  totalDataUsed : Option String
  dataPlan : Option String
  usageCycle : Option String
  usageDate : Option String
deriving DecidableEq, Repr

/-- The summary payload (`summary` in `process_data`). -/
structure SummaryPayload where
  errorFlag : Option Bool
  error : Option ErrorInfo
  modemDetails : Option (List ModemDetail)
deriving DecidableEq, Repr

/-- The summary dict produced when the account-summary page does not
contain the embedded JSON payload: `summary_data = {}` (all keys absent). -/
def emptySummary : SummaryPayload := ⟨none, none, none⟩

/-- Models `get_usage_data` lines 153–158: the regex search for the
`data-usage-url` attribute and the JSON decode are abstracted as `found`
(the decoded payload when the pattern matches); when the page lacks the
embedded payload the summary is the empty dict. -/
def get_summary_data (found : Option SummaryPayload) : SummaryPayload :=
  match found with
  | some s => s
  | none => emptySummary

/-- An InfluxDB field value: Python `str`, `float` (modelled by `ℚ`) or
`int`. -/
inductive FVal where
  | s (v : String)
  | f (v : ℚ)
  | i (v : ℤ)
deriving DecidableEq, Repr

/-- An InfluxDB `Point`: measurement name, optional explicit timestamp
(`.time(..)`), and the fields added by `.field(..)` in order. -/
structure Point where
  measurement : String
  time : Option Datetime
  fields : List (String × FVal)
deriving DecidableEq, Repr

/-- The `gigabytes` constant of `process_data` (line 186): `1024**3`. -/
def gigabytes : ℚ := 1024 * 1024 * 1024

/-- Lines 212–218 of `process_data`: both parsed cycle endpoints get the
current year, then the December/January rollover is applied — `if` the
start month is December and the current month is January the start year
becomes last year, `elif` the end month is January and the current month
is December the end year becomes next year. -/
def adjust_cycle_years (now : Datetime) (ss se : Datetime) : Datetime × Datetime :=
  let ss := { ss with year := now.year }
  let se := { se with year := now.year }
  if ss.month = 12 ∧ now.month = 1 then ({ ss with year := now.year - 1 }, se)
  else if se.month = 1 ∧ now.month = 12 then (ss, { se with year := now.year + 1 })
  else (ss, se)

/-- Lines 203–218 of `process_data`: split the `usageCycle` string on
`-` (unpacking into exactly two parts, `ValueError` otherwise), parse each
part with `strptime("%B %d")` after stripping, and resolve the years. -/
def resolve_cycle (service_period : String) (now : Datetime) :
    Except PyErr (Datetime × Datetime) :=
  match strSplitOn service_period '-' with
  | [s1, s2] => do
    let ss ← strptimeBd (strTrim s1)
    let se ← strptimeBd (strTrim s2)
    Except.ok (adjust_cycle_years now ss se)
  | _ => Except.error PyErr.valueError

/-- Lines 249–252 of `process_data`: the year assigned to a daily entry,
pivoting on the current month. -/
def rollYearDaily (now : Datetime) (data_month : ℕ) : ℕ :=
  if now.month = 12 ∧ data_month = 1 then now.year + 1
  else if now.month = 1 ∧ data_month = 12 then now.year - 1
  else now.year

/-- Lines 239–243 of the daily loop: read `data_node['text']` and
`data_node['data']`, split the date on `/` and parse each part with
`int`, require exactly a month/day pair, then parse the byte count.
Returns `(month, day, bytes)`. -/
def nodeInfo (node : GraphNode) : Except PyErr (ℕ × ℕ × ℕ) := do
  let data_date ← req node.text "text"
  let data_data ← req node.data "data"
  let nums ← (strSplitOn data_date '/').mapM int_of_string
  match nums with
  | [m, d] => do
    let b ← int_of_string data_data
    Except.ok (m, d, b)
  | _ => Except.error PyErr.valueError

/-- Lines 238–255 of `process_data`: the daily-usage loop.  Entries are
processed in order; the loop `break`s at the first entry whose day and
month both equal today's, otherwise it resolves the entry's year (pivoting
on the current month), builds `datetime(year, month, day)` and appends a
`daily_usage` point timestamped to that day. -/
def daily_records (now : Datetime) : List GraphNode → Except PyErr (List Point)
  | [] => Except.ok []
  | node :: rest => do
    let info ← nodeInfo node
    let m := info.1
    let d := info.2.1
    let b := info.2.2
    if d = now.day ∧ m = now.month then Except.ok []
    else do
      let dtm ← mkDatetime (rollYearDaily now m) m d
      let recs ← daily_records now rest
      Except.ok (⟨"daily_usage", some dtm, [("value", FVal.i (b : ℤ))]⟩ :: recs)

/-- Lines 257–269 of `process_data`: `re.match('Usage as of (.*)', ..)`
(modelled as a prefix test capturing the remainder), `strptime("%B %d")`,
year resolution with the same December/January pivot, and a `last_update`
point holding the `%m/%d/%Y` rendering.  No point is emitted when the
pattern does not match. -/
def last_update_records (now : Datetime) (last_update_str : String) :
    Except PyErr (List Point) :=
  if "Usage as of ".data.isPrefixOf last_update_str.data then do
    let lud ← strptimeBd (String.mk (last_update_str.data.drop 12))
    let lud := { lud with year := now.year }
    let lud :=
      if lud.month = 12 ∧ now.month = 1 then { lud with year := now.year - 1 }
      else if lud.month = 1 ∧ now.month = 12 then { lud with year := now.year + 1 }
      else lud
    Except.ok [⟨"last_update", none, [("value", FVal.s (strftime_mdY lud))]⟩]
  else Except.ok []

/-- `CoxInternetUsage.process_data` (lines 166–271).  `now` is
`datetime.datetime.now()`.  The boolean result records whether the
session was reset (`self._create_session(False)` on the error path).
The Python code stores `errorCode`/`errorMessage` (strings) and returns
early when both are set; since the modelled `error` object always carries
both strings, reaching either error branch returns `([], true)`. -/
def process_data (data : UsagePayload) (summary : SummaryPayload) (now : Datetime) :
    Except PyErr (List Point × Bool) := do
  let dflag ← req data.errorFlag "errorFlag"
  if dflag then do
    let _ ← req data.error "error"
    Except.ok ([], true)
  else do
    let sflag ← req summary.errorFlag "errorFlag"
    if sflag then do
      let _ ← req summary.error "error"
      Except.ok ([], true)
    else do
      let details ← req summary.modemDetails "modemDetails"
      let summary_data ← listGet0 details
      let pstr ← req summary_data.percentageDataUsed "percentageDataUsed"
      let pnum ← int_of_string pstr
      let percent_used : ℚ := (pnum : ℚ) / 100
      let tdu ← req summary_data.totalDataUsed "totalDataUsed"
      let duBytes ← human2bytes tdu
      let dp ← req summary_data.dataPlan "dataPlan"
      let dtBytes ← human2bytes dp
      let data_used : ℚ := (duBytes : ℚ) / gigabytes
      let data_total : ℚ := (dtBytes : ℚ) / gigabytes
      let service_period ← req summary_data.usageCycle "usageCycle"
      let cyc ← resolve_cycle service_period now
      let time_left := tdDays cyc.2 now
      let p1 : Point := ⟨"current_monthly_usage", none,
        [("service_period", FVal.s service_period),
         ("current", FVal.f data_used),
         ("remaining", FVal.f (data_total - data_used)),
         ("total", FVal.f data_total),
         ("percent_used", FVal.f percent_used)]⟩
      let p2 : Point := ⟨"current_monthly_total", none,
        [("service_period", FVal.s service_period),
         ("value", FVal.f data_total)]⟩
      let time_into := tdDays now cyc.1
      let p3 : Point := ⟨"cycle_days", none,
        [("remaining", FVal.i time_left), ("current", FVal.i time_into)]⟩
      let seriesList ← req data.modemGraphDetails "modemGraphDetails"
      let usage_data ← listGet0 seriesList
      let gdata ← req usage_data.graphData "graphData"
      let daily ← daily_records now gdata
      let last_update_str ← req summary_data.usageDate "usageDate"
      let lastRecs ← last_update_records now last_update_str
      Except.ok ([p1, p2, p3] ++ daily ++ lastRecs, false)

/-- A cookie of the jar, with the attributes the program consults. -/
structure Cookie where
  name : String
  domain : String
  value : String
deriving DecidableEq, Repr

/-- The cookie jar (`requests.cookies.RequestsCookieJar`). -/
abbrev CookieJar := List Cookie

/-- `_create_session` (lines 54–63): with `restore_cookies` the persisted
store is unpickled, any failure (absent or unreadable file) yielding a
fresh empty jar; without it the jar is simply fresh.  `store` is the
persisted state: `none` models an absent or unreadable cookie file. -/
def create_session (restore_cookies : Bool) (store : Option CookieJar) : CookieJar :=
  if restore_cookies then
    match store with
    | some jar => jar
    | none => []
  else []

/-- The save step of `_do_login` (lines 119–120): `pickle.dump` replaces
the persisted store with the current jar. -/
def save_cookies (jar : CookieJar) : Option CookieJar := some jar

/-- An HTTP response: status code and body text. -/
structure HttpResponse where
  status : Nat
  text : String
deriving DecidableEq, Repr

/-- Line 126 of `_get_with_auth`: re-auth triggers when the status is 401
or the body contains the sign-in marker. -/
def needs_auth (r : HttpResponse) : Bool :=
  r.status == 401 || strContains r.text "Sign In to Your Cox Account"

/-- `_get_with_auth` (lines 124–135).  The environment supplies the
response `first` to the initial GET, the outcome `loginOk` of `_do_login`
(consulted only when re-auth triggers) and the response `second` to a
retried GET.  The result pairs the observable request counts
`(GETs issued, logins attempted)` with the returned response or raised
error, mirroring the code: on a trigger, a failed login runs
`raise_for_status()` on the *original* response (a no-op for 2xx/3xx
statuses) and then — if that did not raise — the GET is reissued anyway;
a successful login reissues the GET; the response finally returned is
always passed through `raise_for_status`. -/
def get_with_auth (first second : HttpResponse) (loginOk : Bool) :
    (ℕ × ℕ) × Except PyErr HttpResponse :=
  if needs_auth first then
    if loginOk then
      ((2, 1), do raise_for_status second.status; Except.ok second)
    else
      match raise_for_status first.status with
      | Except.error e => ((1, 1), Except.error e)
      | Except.ok _ => ((2, 1), do raise_for_status second.status; Except.ok second)
  else
    ((1, 0), do raise_for_status first.status; Except.ok first)

/-- `dropToClose l` finds the first `*/` in `l` and returns what follows,
or `none` when the comment is unterminated. -/
def dropToClose : List Char → Option (List Char)
  | '*' :: '/' :: rest => some rest
  | _ :: rest => dropToClose rest
  | [] => none

/-- Fuel-indexed scanner for `remove_comments`; the fuel is the input
length, which bounds the number of steps since every step consumes at
least one character. -/
def removeCommentsAux : ℕ → List Char → List Char
  | 0, l => l
  | fuel + 1, l =>
    match l with
    | [] => []
    | '/' :: '*' :: rest =>
      (match dropToClose rest with
       | some r => removeCommentsAux fuel r
       | none => '/' :: '*' :: rest)
    | c :: rest => c :: removeCommentsAux fuel rest

/-- `remove_comments` (lines 17–22): deletes every lazily-matched
`/* ... */` block (`re.sub` with pattern `/\*[\s\S]*?\*/`); an
unterminated `/*` is not a match and is kept verbatim. -/
def remove_comments (js : String) : String :=
  String.mk (removeCommentsAux js.data.length js.data)

/-- A single or double quote, the character class `['"]` of the
constant-extraction regex. -/
def quoteChar (c : Char) : Bool := c = Char.ofNat 39 || c = Char.ofNat 34

/-- One line matched against `^\s*var KEY = ['"](.*)['"];$`: optional
leading whitespace, the literal `var KEY = `, an opening quote, a greedy
capture, a closing quote and a final `;` ending the line.  Greediness
makes the closing quote the last quote before the terminal `;`, i.e. the
second-to-last character. -/
def extractVarLine (key : String) (line : String) : Option String :=
  let l := line.data.dropWhile (fun c => c.isWhitespace)
  let pre := ("var " ++ strUpper key ++ " = ").data
  if pre.isPrefixOf l then
    match l.drop pre.length with
    | c :: mid =>
      if quoteChar c ∧ 2 ≤ mid.length then
        match mid.drop (mid.length - 2) with
        | [q, semi] =>
          if quoteChar q ∧ semi = ';' then some (String.mk (mid.take (mid.length - 2)))
          else none
        | _ => none
      else none
    | [] => none
  else none

/-- `re.search` of the multiline anchored pattern over the whole script:
the first line that matches wins. -/
def extractVarSearch (key js : String) : Option String :=
  ((strSplitOn js '\n').findSome? (extractVarLine key))

/-- The key list of `_do_login` line 83. -/
def loginKeys : List String := ["client_id", "scope", "base_url", "issuer"]

/-- Lines 83–90 of `_do_login`: `results[key]` is assigned only for the
keys whose regex matched. -/
def extractConstants (js : String) : List (String × String) :=
  loginKeys.filterMap (fun k => (extractVarSearch k js).map (fun v => (k, v)))

/-- The external world as seen by one `_do_login` run: the body of the
okta script GET, the decoded JSON dict of the `authn` POST, the status of
the authorize GET, the cookie jar contents after the exchange (every
request may set cookies), and the outcome of the `pickle.dump` save.
Request-level failures are `connectionError`; a JSON decode failure of
the `authn` response is also a non-`HTTPError` exception. -/
structure LoginEnv where
  jsGet : Except PyErr String
  authn : Except PyErr (List (String × String))
  authorize : Except PyErr Nat
  cookiesAfter : CookieJar
  save : Except PyErr Unit
deriving Repr

/-- The `try` body of `_do_login` (lines 79–103): fetch and clean the
okta script, extract the constants, POST the credentials and read
`sessionToken` from the decoded response (`KeyError` when absent), build
the authorize URI — reading `results['issuer']` then
`results['client_id']`, each a potential `KeyError` — issue the authorize
GET and `raise_for_status` it. -/
def login_attempt (env : LoginEnv) : Except PyErr Unit := do
  let js ← env.jsGet
  let cleaned := remove_comments js
  let results := extractConstants cleaned
  let auth ← env.authn
  let _ ← dictGet auth "sessionToken"
  let _ ← dictGet results "issuer"
  let _ ← dictGet results "client_id"
  let status ← env.authorize
  raise_for_status status

/-- Line 110: `self.cookie_jar.get('_cidt', None, domain='.cox.com')`. -/
def find_cidt (jar : CookieJar) : Option Cookie :=
  jar.find? (fun c => c.name == "_cidt" && c.domain == ".cox.com")

/-- `_do_login` (lines 72–122).  The `except` clause catches *only*
`requests.HTTPError`, returning `False`; every other exception (network
failure, JSON failure, a `KeyError` from a missing constant or missing
session token) propagates.  After a successful exchange, absence of the
`_cidt` cookie returns `False`; otherwise the jar is pickled — an IO
failure there propagates — and `True` is returned. -/
def do_login (env : LoginEnv) : Except PyErr Bool :=
  match login_attempt env with
  | Except.error (PyErr.httpError _) => Except.ok false
  | Except.error e => Except.error e
  | Except.ok _ =>
    match find_cidt env.cookiesAfter with
    | none => Except.ok false
    | some _ =>
      match env.save with
      | Except.error e => Except.error e
      | Except.ok _ => Except.ok true

/-! ## Spec-side helpers and concrete scenario inputs -/

/-- Well-formedness of a payload's error indicator, following the data
model of the spec (§3): the payload carries an optional error indicator
with code and message; when `errorFlag` is true the `error` object is
present. -/
def wfError (ef : Option Bool) (e : Option ErrorInfo) : Bool :=
  match ef with
  | some true => e.isSome
  | some false => true
  | none => false

/-- Whether a daily entry's month/day equals today's (the loop's `break`
condition), `false` when the entry does not parse. -/
def nodeMatchesToday (now : Datetime) (node : GraphNode) : Bool :=
  match nodeInfo node with
  | Except.ok (m, d, _) => decide (d = now.day ∧ m = now.month)
  | Except.error _ => false

/-- A daily entry that parses and whose resolved date is constructible. -/
def nodeOk (now : Datetime) (node : GraphNode) : Bool :=
  match nodeInfo node with
  | Except.ok (m, d, _) => (mkDatetime (rollYearDaily now m) m d).toOption.isSome
  | Except.error _ => false

/-- The `daily_usage` point the loop builds for a well-formed entry. -/
def nodePoint (now : Datetime) (node : GraphNode) : Point :=
  match nodeInfo node with
  | Except.ok (m, d, b) =>
    ⟨"daily_usage", (mkDatetime (rollYearDaily now m) m d).toOption,
     [("value", FVal.i (b : ℤ))]⟩
  | Except.error _ => ⟨"daily_usage", none, []⟩

/-- `datetime.now()` of the end-to-end scenario: June 15 (midnight). -/
def nowC1 : Datetime := ⟨2023, 6, 15, 0, 0, 0⟩

/-- The summary payload of the end-to-end scenario. -/
def summaryC1 : SummaryPayload :=
  ⟨some false, none,
   some [⟨some "40", some "500 GB", some "1.25 TB",
          some "June 1 - June 30", some "Usage as of June 14"⟩]⟩

/-- A non-error usage payload with an empty daily series. -/
def dataC1 : UsagePayload := ⟨some false, none, some [⟨some []⟩]⟩

/-- A usage payload whose daily series lists June 16 *before* the entry
matching today (June 15). -/
def dataC6 : UsagePayload :=
  ⟨some false, none,
   some [⟨some [⟨some "6/16", some "10"⟩, ⟨some "6/15", some "20"⟩]⟩]⟩

/-- An okta script that defines `CLIENT_ID`, `SCOPE` and `BASE_URL` but
no `ISSUER`. -/
def jsNoIssuer : String :=
  "var CLIENT_ID = \"abc\";\nvar SCOPE = \"openid\";\nvar BASE_URL = \"https://x\";"

/-- An okta script defining all four constants (with a block comment). -/
def jsFull : String :=
  "/* okta */ var CLIENT_ID = \"abc\";\nvar SCOPE = \"openid\";\nvar BASE_URL = \"https://x\";\nvar ISSUER = \"https://iss\";"

/-- A login run in which every request succeeds but the fetched script
lacks the `ISSUER` constant. -/
def envNoIssuer : LoginEnv :=
  ⟨Except.ok jsNoIssuer, Except.ok [("sessionToken", "tok")], Except.ok 200, [],
   Except.ok ()⟩

/-- A login run in which the authorize exchange responds 403. -/
def envHttpFail : LoginEnv :=
  ⟨Except.ok jsFull, Except.ok [("sessionToken", "tok")], Except.ok 403, [],
   Except.ok ()⟩

/-- A login run in which authentication fully succeeds (the `_cidt`
cookie is present) but the cookie-file write fails. -/
def envC8 : LoginEnv :=
  ⟨Except.ok jsFull, Except.ok [("sessionToken", "tok")], Except.ok 200,
   [⟨"_cidt", ".cox.com", "v"⟩], Except.error PyErr.ioError⟩

/-! ## Theorems -/

theorem except_bind_ok {α β : Type} (a : α) (f : α → Except PyErr β) :
    (Except.ok a >>= f : Except PyErr β) = f a := rfl

theorem except_bind_error {α β : Type} (e : PyErr) (f : α → Except PyErr β) :
    ((Except.error e : Except PyErr α) >>= f) = Except.error e := rfl

/-- C1: in the end-to-end normalization scenario — summary payload with
`totalDataUsed = "500 GB"`, `dataPlan = "1.25 TB"`,
`percentageDataUsed = "40"`, `usageCycle = "June 1 - June 30"`, current
date June 15 — `process_data` emits a `current_monthly_usage` record with
`current = 500.0`, `total = 1280.0`, `remaining = 780.0`,
`percent_used = 0.40`, and a `cycle_days` record with `current = 14` and
`remaining = 15` (the complete output also carries the monthly-total and
last-update records the code always appends). -/
theorem claim_c1 :
    process_data dataC1 summaryC1 nowC1 =
      Except.ok
        ([⟨"current_monthly_usage", none,
           [("service_period", FVal.s "June 1 - June 30"),
            ("current", FVal.f 500),
            ("remaining", FVal.f 780),
            ("total", FVal.f 1280),
            ("percent_used", FVal.f (2 / 5 : ℚ))]⟩,
          ⟨"current_monthly_total", none,
           [("service_period", FVal.s "June 1 - June 30"),
            ("value", FVal.f 1280)]⟩,
          ⟨"cycle_days", none,
           [("remaining", FVal.i 15), ("current", FVal.i 14)]⟩,
          ⟨"last_update", none, [("value", FVal.s "06/14/2023")]⟩],
         false) := by
  have step : process_data dataC1 summaryC1 nowC1 =
      Except.ok
        ([⟨"current_monthly_usage", none,
           [("service_period", FVal.s "June 1 - June 30"),
            ("current", FVal.f (((536870912000 : ℕ) : ℚ) / gigabytes)),
            ("remaining", FVal.f (((1374389534720 : ℕ) : ℚ) / gigabytes -
              ((536870912000 : ℕ) : ℚ) / gigabytes)),
            ("total", FVal.f (((1374389534720 : ℕ) : ℚ) / gigabytes)),
            ("percent_used", FVal.f (((40 : ℕ) : ℚ) / 100))]⟩,
          ⟨"current_monthly_total", none,
           [("service_period", FVal.s "June 1 - June 30"),
            ("value", FVal.f (((1374389534720 : ℕ) : ℚ) / gigabytes))]⟩,
          ⟨"cycle_days", none,
           [("remaining", FVal.i 15), ("current", FVal.i 14)]⟩,
          ⟨"last_update", none, [("value", FVal.s "06/14/2023")]⟩],
         false) := rfl
  rw [step]
  norm_num [gigabytes]

/-- C2: whenever the summary payload carries `errorFlag = true` (with its
error object present, per the data model) and the usage payload is
well-formed, `process_data` returns the empty record sequence together
with the session-reset signal, and no exception is raised — whichever of
the two payloads also signals an error. -/
theorem claim_c2 (data : UsagePayload) (summary : SummaryPayload) (now : Datetime)
    (hd : wfError data.errorFlag data.error = true)
    (hs : summary.errorFlag = some true)
    (hse : summary.error.isSome = true) :
    process_data data summary now = Except.ok ([], true) := by
  obtain ⟨ef, er, mg⟩ := data
  obtain ⟨sf, ser, md⟩ := summary
  simp only at hd hs hse
  subst hs
  cases ef with
  | none => simp [wfError] at hd
  | some b =>
    cases b with
    | false =>
      cases ser with
      | none => simp at hse
      | some e => rfl
    | true =>
      cases er with
      | none => simp [wfError] at hd
      | some e => rfl

/-- Witness for C2 at a concrete error payload. -/
theorem claim_c2_witness :
    process_data ⟨some false, none, none⟩
      ⟨some true, some ⟨"E100", "backend error"⟩, none⟩ ⟨2023, 6, 15, 0, 0, 0⟩ =
      Except.ok ([], true) :=
  claim_c2 _ _ _ (by decide) rfl rfl

/-- C3 counterexample: the portal answers HTTP 200 whose body carries the
sign-in marker, and the subsequent login fails.  The claim says the
original HTTP error is surfaced and the GET is not retried; the code
instead calls `raise_for_status()` on the 200 response — a no-op — and
retries the GET, returning its (here successful) response: two GETs, one
login, no error raised. -/
theorem claim_c3_counterexample :
    get_with_auth ⟨200, "<html>Sign In to Your Cox Account</html>"⟩
      ⟨200, "payload"⟩ false =
      ((2, 1), Except.ok ⟨200, "payload"⟩) := by
  rfl

/-- C3 (amended): when an authenticated GET triggers re-auth, then (a) if
login fails *and* the original response has an HTTP-error status, that
original error is raised and the GET is not retried; (b) if login fails
but the original status is not an error status (the 200-with-marker
case), the GET is still retried once; (c) if login succeeds, the GET is
retried exactly once — in every case exactly one login attempt and no
further re-auth check on the retried response. -/
theorem claim_c3 (first second : HttpResponse) (loginOk : Bool)
    (htrig : needs_auth first = true) :
    (loginOk = false → 400 ≤ first.status ∧ first.status < 600 →
      get_with_auth first second loginOk =
        ((1, 1), Except.error (PyErr.httpError first.status))) ∧
    (loginOk = false → ¬(400 ≤ first.status ∧ first.status < 600) →
      get_with_auth first second loginOk =
        ((2, 1), do raise_for_status second.status; Except.ok second)) ∧
    (loginOk = true →
      get_with_auth first second loginOk =
        ((2, 1), do raise_for_status second.status; Except.ok second)) := by
  refine ⟨fun hlo herr => ?_, fun hlo herr => ?_, fun hlo => ?_⟩ <;> subst hlo
  · simp [get_with_auth, htrig, raise_for_status, herr]
  · simp [get_with_auth, htrig, raise_for_status, herr]
  · simp [get_with_auth, htrig]

/-- Witness for C3 (amended), branch (c): a 401 with successful login
yields two GETs, one login, and the retried response. -/
theorem claim_c3_witness :
    get_with_auth ⟨401, "expired"⟩ ⟨200, "payload"⟩ true =
      ((2, 1), Except.ok ⟨200, "payload"⟩) :=
  (claim_c3 ⟨401, "expired"⟩ ⟨200, "payload"⟩ true rfl).2.2 rfl

/-- C7: when the first GET comes back 401, `_do_login` is invoked exactly
once, and if it returns true the GET is reissued exactly once — two GET
attempts, one login attempt, never more. -/
theorem claim_c7 (first second : HttpResponse) (loginOk : Bool)
    (h401 : first.status = 401) :
    (get_with_auth first second loginOk).1.2 = 1 ∧
    (loginOk = true → (get_with_auth first second loginOk).1 = (2, 1)) := by
  have htrig : needs_auth first = true := by simp [needs_auth, h401]
  constructor
  · cases loginOk with
    | false => simp [get_with_auth, htrig, raise_for_status, h401]
    | true => simp [get_with_auth, htrig]
  · intro hlo
    subst hlo
    simp [get_with_auth, htrig]

/-- Witness for C7 at a concrete 401 response. -/
theorem claim_c7_witness :
    (get_with_auth ⟨401, "expired"⟩ ⟨200, "payload"⟩ true).1 = (2, 1) :=
  (claim_c7 ⟨401, "expired"⟩ ⟨200, "payload"⟩ true rfl).2 rfl

/-- C9: persisting the cookie jar and loading it back yields the same
cookie set, and loading from an absent or unreadable store yields a fresh
empty session without raising. -/
theorem claim_c9 (jar : CookieJar) :
    create_session true (save_cookies jar) = jar ∧ create_session true none = [] :=
  ⟨rfl, rfl⟩

/-- C10: when the account-summary page lacks the embedded JSON payload
the fetcher produces the empty summary dict, and `process_data` on that
empty summary (with a non-error usage payload) raises `KeyError` for the
missing `errorFlag` key instead of returning an empty record sequence. -/
theorem claim_c10 :
    get_summary_data none = emptySummary ∧
    process_data dataC1 (get_summary_data none) nowC1 =
      Except.error (PyErr.keyError "errorFlag") :=
  ⟨rfl, rfl⟩

/-- C4 counterexample: a login run in which every request succeeds but
the fetched okta script lacks the `ISSUER` constant.  The claim says any
failure — including missing extracted constants — is logged and `False`
is returned with no exception escaping; the code instead raises an
uncaught `KeyError` for `'issuer'` (the `except` clause catches only
`requests.HTTPError`). -/
theorem claim_c4_counterexample :
    do_login envNoIssuer = Except.error (PyErr.keyError "issuer") ∧
    do_login envNoIssuer ≠ Except.ok false := by
  have h : do_login envNoIssuer = Except.error (PyErr.keyError "issuer") := rfl
  refine ⟨h, fun hc => ?_⟩
  rw [h] at hc
  exact Except.noConfusion hc

/-- C4 (amended): `_do_login` returns `False` exactly on the failures its
`except` clause covers — an `HTTPError` from the authorize exchange — and
on a missing success cookie; it returns `True` when the exchange
succeeds, the `_cidt` cookie is present and the save succeeds; every
other failure (network error, missing extracted constant, missing session
token, failing save) escapes as an exception rather than returning
`False`. -/
theorem claim_c4 (env : LoginEnv) :
    (∀ c, login_attempt env = Except.error (PyErr.httpError c) →
      do_login env = Except.ok false) ∧
    (login_attempt env = Except.ok () → find_cidt env.cookiesAfter = none →
      do_login env = Except.ok false) ∧
    (login_attempt env = Except.ok () →
      (find_cidt env.cookiesAfter).isSome = true → env.save = Except.ok () →
      do_login env = Except.ok true) ∧
    (∀ e, login_attempt env = Except.error e → (∀ c, e ≠ PyErr.httpError c) →
      do_login env = Except.error e) := by
  refine ⟨fun c hc => ?_, fun hok hnone => ?_, fun hok hsome hsave => ?_,
    fun e he hne => ?_⟩
  · simp [do_login, hc]
  · simp [do_login, hok, hnone]
  · obtain ⟨ck, hck⟩ := Option.isSome_iff_exists.mp hsome
    simp [do_login, hok, hck, hsave]
  · cases e with
    | httpError c => exact absurd rfl (hne c)
    | keyError k => simp [do_login, he]
    | indexError => simp [do_login, he]
    | valueError => simp [do_login, he]
    | connectionError => simp [do_login, he]
    | ioError => simp [do_login, he]

/-- Witness for C4 (amended): the authorize exchange answers 403, and
`_do_login` returns `False`. -/
theorem claim_c4_witness : do_login envHttpFail = Except.ok false :=
  (claim_c4 envHttpFail).1 403 rfl

/-- C8 counterexample: authentication succeeds (the `_cidt` cookie is
present) but the cookie-file write fails.  The claim says the failure is
logged and non-fatal with login still returning true; the code instead
lets the exception escape (`pickle.dump` is outside the `try`), so login
does not return true and the caller is aborted. -/
theorem claim_c8_counterexample :
    do_login envC8 = Except.error PyErr.ioError ∧
    do_login envC8 ≠ Except.ok true := by
  have h : do_login envC8 = Except.error PyErr.ioError := rfl
  refine ⟨h, fun hc => ?_⟩
  rw [h] at hc
  exact Except.noConfusion hc

/-- C8 (amended): when the login exchange succeeds and the success cookie
is present but the session-store write fails, the write's exception
propagates out of `_do_login` — login does not return true and nothing is
caught or logged inside the component. -/
theorem claim_c8 (env : LoginEnv) (e : PyErr)
    (hattempt : login_attempt env = Except.ok ())
    (hcookie : (find_cidt env.cookiesAfter).isSome = true)
    (hsave : env.save = Except.error e) :
    do_login env = Except.error e := by
  obtain ⟨ck, hck⟩ := Option.isSome_iff_exists.mp hcookie
  simp [do_login, hattempt, hck, hsave]

/-- Witness for C8 (amended) at the concrete failing-save run. -/
theorem claim_c8_witness : do_login envC8 = Except.error PyErr.ioError :=
  claim_c8 envC8 PyErr.ioError rfl rfl rfl

/-- Year-resolution property of the rollover step, stated on the pure
adjustment function. -/
theorem adjust_cycle_years_spec (now d1 d2 : Datetime) :
    ((adjust_cycle_years now d1 d2).1.month = 12 ∧ now.month = 1 →
      (adjust_cycle_years now d1 d2).1.year = now.year - 1 ∧
      (adjust_cycle_years now d1 d2).2.year = now.year) ∧
    ((adjust_cycle_years now d1 d2).2.month = 1 ∧ now.month = 12 →
      (adjust_cycle_years now d1 d2).1.year = now.year ∧
      (adjust_cycle_years now d1 d2).2.year = now.year + 1) ∧
    (¬((adjust_cycle_years now d1 d2).1.month = 12 ∧ now.month = 1) →
      ¬((adjust_cycle_years now d1 d2).2.month = 1 ∧ now.month = 12) →
      (adjust_cycle_years now d1 d2).1.year = now.year ∧
      (adjust_cycle_years now d1 d2).2.year = now.year) := by
  simp only [adjust_cycle_years]
  split_ifs with h1 h2
  · refine ⟨fun _ => ⟨rfl, rfl⟩, fun hc => ?_, fun hn _ => absurd h1 hn⟩
    obtain ⟨-, hb⟩ := hc
    obtain ⟨-, ha⟩ := h1
    omega
  · refine ⟨fun hc => ?_, fun _ => ⟨rfl, rfl⟩, fun _ hn => absurd h2 hn⟩
    obtain ⟨-, ha⟩ := hc
    obtain ⟨-, hb⟩ := h2
    omega
  · exact ⟨fun hc => absurd hc h1, fun hc => absurd hc h2, fun _ _ => ⟨rfl, rfl⟩⟩

/-- C5: for every cycle string accepted by the cycle parser, if the start
month is December while the current month is January the resolved start
year is `current_year - 1` and the end year is `current_year`; if the end
month is January while the current month is December the resolved end
year is `current_year + 1` and the start year is `current_year`; in every
other case both resolved years equal `current_year`. -/
theorem claim_c5 (s : String) (now ss se : Datetime)
    (h : resolve_cycle s now = Except.ok (ss, se)) :
    (ss.month = 12 ∧ now.month = 1 → ss.year = now.year - 1 ∧ se.year = now.year) ∧
    (se.month = 1 ∧ now.month = 12 → ss.year = now.year ∧ se.year = now.year + 1) ∧
    (¬(ss.month = 12 ∧ now.month = 1) → ¬(se.month = 1 ∧ now.month = 12) →
      ss.year = now.year ∧ se.year = now.year) := by
  unfold resolve_cycle at h
  split at h
  case h_2 => exact absurd h (by simp)
  case h_1 p1 p2 hsplit =>
    cases h1 : strptimeBd (strTrim p1) with
    | error e =>
      rw [h1, except_bind_error] at h
      exact absurd h (by simp)
    | ok d1 =>
      rw [h1, except_bind_ok] at h
      cases h2 : strptimeBd (strTrim p2) with
      | error e =>
        rw [h2, except_bind_error] at h
        exact absurd h (by simp)
      | ok d2 =>
        rw [h2, except_bind_ok] at h
        simp only [Except.ok.injEq] at h
        have e1 : (adjust_cycle_years now d1 d2).1 = ss := by rw [h]
        have e2 : (adjust_cycle_years now d1 d2).2 = se := by rw [h]
        rw [← e1, ← e2]
        exact adjust_cycle_years_spec now d1 d2

/-- Witness for C5 at `"December 15 - January 14"` evaluated in January:
the start year resolves to the previous year and the end year to the
current year. -/
theorem claim_c5_witness :
    ((⟨2023, 12, 15, 0, 0, 0⟩ : Datetime).year =
      (⟨2024, 1, 5, 10, 30, 0⟩ : Datetime).year - 1) ∧
    ((⟨2024, 1, 14, 0, 0, 0⟩ : Datetime).year =
      (⟨2024, 1, 5, 10, 30, 0⟩ : Datetime).year) :=
  (claim_c5 "December 15 - January 14" ⟨2024, 1, 5, 10, 30, 0⟩
    ⟨2023, 12, 15, 0, 0, 0⟩ ⟨2024, 1, 14, 0, 0, 0⟩ rfl).1 ⟨rfl, rfl⟩

/-- C6 counterexample: today is June 15 and the daily series lists a
June 16 entry *before* the entry matching today.  The claim says entries
at or after today are excluded; the code only breaks on an exact
month/day match with today, so the June 16 entry — a date strictly after
today — is emitted as a `daily_usage` record. -/
theorem claim_c6_counterexample :
    process_data dataC6 summaryC1 nowC1 =
      Except.ok
        ([⟨"current_monthly_usage", none,
           [("service_period", FVal.s "June 1 - June 30"),
            ("current", FVal.f 500),
            ("remaining", FVal.f 780),
            ("total", FVal.f 1280),
            ("percent_used", FVal.f (2 / 5 : ℚ))]⟩,
          ⟨"current_monthly_total", none,
           [("service_period", FVal.s "June 1 - June 30"),
            ("value", FVal.f 1280)]⟩,
          ⟨"cycle_days", none,
           [("remaining", FVal.i 15), ("current", FVal.i 14)]⟩,
          ⟨"daily_usage", some ⟨2023, 6, 16, 0, 0, 0⟩,
           [("value", FVal.i 10)]⟩,
          ⟨"last_update", none, [("value", FVal.s "06/14/2023")]⟩],
         false) := by
  have step : process_data dataC6 summaryC1 nowC1 =
      Except.ok
        ([⟨"current_monthly_usage", none,
           [("service_period", FVal.s "June 1 - June 30"),
            ("current", FVal.f (((536870912000 : ℕ) : ℚ) / gigabytes)),
            ("remaining", FVal.f (((1374389534720 : ℕ) : ℚ) / gigabytes -
              ((536870912000 : ℕ) : ℚ) / gigabytes)),
            ("total", FVal.f (((1374389534720 : ℕ) : ℚ) / gigabytes)),
            ("percent_used", FVal.f (((40 : ℕ) : ℚ) / 100))]⟩,
          ⟨"current_monthly_total", none,
           [("service_period", FVal.s "June 1 - June 30"),
            ("value", FVal.f (((1374389534720 : ℕ) : ℚ) / gigabytes))]⟩,
          ⟨"cycle_days", none,
           [("remaining", FVal.i 15), ("current", FVal.i 14)]⟩,
          ⟨"daily_usage", some ⟨2023, 6, 16, 0, 0, 0⟩,
           [("value", FVal.i 10)]⟩,
          ⟨"last_update", none, [("value", FVal.s "06/14/2023")]⟩],
         false) := rfl
  rw [step]
  norm_num [gigabytes]

/-- C6 (amended): for every daily series whose entries are well-formed,
the loop emits exactly one `daily_usage` record per entry *preceding* the
first entry whose month/day equals today's, and stops there; the matching
entry and everything after it are excluded.  (Entries dated after today
that precede the first today-match in the series are still emitted; only
position relative to the today-match governs exclusion.) -/
theorem claim_c6 (now : Datetime) (series : List GraphNode)
    (h : ∀ n ∈ series, nodeOk now n = true) :
    daily_records now series =
      Except.ok ((series.takeWhile (fun n => !nodeMatchesToday now n)).map
        (nodePoint now)) := by
  induction series with
  | nil => rfl
  | cons node rest ih =>
    have hn : nodeOk now node = true := h node (List.mem_cons_self _ _)
    have hrest : ∀ n ∈ rest, nodeOk now n = true :=
      fun n hm => h n (List.mem_cons_of_mem _ hm)
    cases hinfo : nodeInfo node with
    | error e =>
      simp only [nodeOk, hinfo] at hn
      exact Bool.noConfusion hn
    | ok t =>
      obtain ⟨m, d, b⟩ := t
      have hmk : (mkDatetime (rollYearDaily now m) m d).toOption.isSome = true := by
        simpa only [nodeOk, hinfo] using hn
      cases hmkd : mkDatetime (rollYearDaily now m) m d with
      | error e => rw [hmkd] at hmk; simp [Except.toOption] at hmk
      | ok dtm =>
        by_cases hm : d = now.day ∧ m = now.month
        · have hmt : nodeMatchesToday now node = true := by
            simp only [nodeMatchesToday, hinfo]
            exact decide_eq_true hm
          simp only [daily_records, hinfo, except_bind_ok]
          rw [if_pos hm, List.takeWhile_cons]
          simp [hmt]
        · have hmt : nodeMatchesToday now node = false := by
            simp only [nodeMatchesToday, hinfo]
            exact decide_eq_false hm
          simp only [daily_records, hinfo, except_bind_ok]
          rw [if_neg hm, hmkd, except_bind_ok, ih hrest, except_bind_ok,
            List.takeWhile_cons]
          simp only [hmt, Bool.not_false, if_true, List.map_cons,
            Except.ok.injEq, List.cons.injEq]
          refine ⟨?_, trivial⟩
          simp [nodePoint, hinfo, hmkd, Except.toOption]

/-- Witness for C6 (amended): today is June 15; the series holds June 13,
June 15 and June 16 entries; exactly the June 13 record is emitted. -/
theorem claim_c6_witness :
    daily_records ⟨2023, 6, 15, 0, 0, 0⟩
      [⟨some "6/13", some "1"⟩, ⟨some "6/15", some "2"⟩, ⟨some "6/16", some "3"⟩] =
      Except.ok [⟨"daily_usage", some ⟨2023, 6, 13, 0, 0, 0⟩, [("value", FVal.i 1)]⟩] := by
  have h := claim_c6 ⟨2023, 6, 15, 0, 0, 0⟩
    [⟨some "6/13", some "1"⟩, ⟨some "6/15", some "2"⟩, ⟨some "6/16", some "3"⟩]
    (by decide)
  exact h.trans (by rfl)

end CoxStatus
